import Mathlib

/-!
Shallow embedding of `kalite_gtk/cli.py` (the CLI/configuration module of
ka-lite-gtk) and proofs about it.

Modelling conventions:
* Python strings are Lean `String`s; where character-level scanning matters
  (regular expressions, `strip`, whitespace splitting) we work on `List Char`.
* JSON values that can appear in the settings dictionary are modelled by
  `JVal` (string, integer, or null); Python `None` is `JVal.jnull`.
* The operating-system environment that the module reads at import time
  (current user, `pwd` database, `find_executable`, the fixed-path system
  convention files, the user settings file) is a record `Env`.
* Python exceptions that escape the module are values of `PyErr`; functions
  that can raise return `Except PyErr`.
* `logger.error` / `logger.info` calls are recorded as `LogEvent`s; plain
  `print` calls are not modelled.
-/

/-- JSON-ish values as they occur in the settings dictionary. -/
inductive JVal where
  | jstr (s : String)
  | jnum (n : Int)
  | jnull
deriving DecidableEq

/-- Log statements issued by the module (by `logger.error` at the three
error sites of the configuration code). -/
inductive LogEvent where
  | nonExistingUsername
  | illegalValue (field : String)
  | parsingError
deriving DecidableEq

/-- Python exceptions that escape uncaught from the modelled code. -/
inductive PyErr where
  | keyError (k : String)
  | ioError (file : String)
  | typeError
deriving DecidableEq

/-- The module-level `settings` dictionary.  Its five keys are fixed; the
values are arbitrary JSON values because fields without a validator are
stored unvalidated. -/
structure Settings where
  user : JVal
  command : JVal
  content_root : JVal
  port : JVal
  home : JVal
deriving DecidableEq

/-- A parsed user settings file (`ka-lite-gtk.json`): each known key is
optionally present.  (Keys the module never touches are irrelevant to every
claim and omitted.) -/
structure UserFile where
  user : Option JVal
  command : Option JVal
  content_root : Option JVal
  port : Option JVal
  home : Option JVal
deriving DecidableEq

/-- The OS environment observed by the module at import time.
`userSettingsFile = none` means the file does not exist;
`some none` means it exists but is not valid JSON (`json.load` raises
`ValueError`); `some (some uf)` is a parsed file. -/
structure Env where
  currentUser : String
  pwDir : String → Option String
  kaliteExe : Option String
  debianUsernameFile : Option String
  debianOptionsFile : Option String
  userSettingsFile : Option (Option UserFile)

/-- Python whitespace characters stripped by `str.strip()` and split on by
`str.split()`. -/
def pyWS (c : Char) : Bool :=
  c = ' ' || c = '\t' || c = '\n' || c = '\r' || c = '\x0b' || c = '\x0c'

/-- Model of `str.strip()`. -/
def pyStrip (l : List Char) : List Char :=
  ((l.dropWhile pyWS).reverse.dropWhile pyWS).reverse

/-- Model of the Python substring test `needle in hay`. -/
def listContains (needle : List Char) : List Char → Bool
  | [] => needle.isEmpty
  | c :: rest => needle.isPrefixOf (c :: rest) || listContains needle rest

/-- Attempt to match the regular expression `--port=\d+` at the head of the
list: on success return the matched digit run and the remainder after the
match (the digit run is maximal, as the greedy `\d+` matches it). -/
def matchPortAt (l : List Char) : Option (List Char × List Char) :=
  if "--port=".toList.isPrefixOf l then
    let rest := l.drop 7
    let ds := rest.takeWhile Char.isDigit
    if ds.isEmpty then none
    else some (ds, rest.dropWhile Char.isDigit)
  else none

/-- Leftmost `re.search` of `--port=(\d+)`: digit group of the first match. -/
def searchPort : List Char → Option (List Char)
  | [] => none
  | c :: rest =>
    match matchPortAt (c :: rest) with
    | some (ds, _) => some ds
    | none => searchPort rest

/-- Whether `--port=\d+` matches somewhere in the list. -/
def hasPortToken : List Char → Bool
  | [] => false
  | c :: rest => (matchPortAt (c :: rest)).isSome || hasPortToken rest

/-- Value of a digit string, as Python `int` of a run of `\d`. -/
def digitsToNat (ds : List Char) : Nat :=
  ds.foldl (fun a c => a * 10 + (c.toNat - 48)) 0

/-- Decimal digits of a natural number (model of formatting a nonnegative
Python int with `str.format`). -/
def natDigitsAux : Nat → Nat → List Char
  | 0, _ => []
  | fuel + 1, n =>
    if n < 10 then [Nat.digitChar n]
    else natDigitsAux fuel (n / 10) ++ [Nat.digitChar (n % 10)]

def natDigits (n : Nat) : List Char := natDigitsAux (n + 1) n

/-- Decimal rendering of a Python int (possibly negative). -/
def formatInt (n : Int) : List Char :=
  match n with
  | .ofNat m => natDigits m
  | .negSucc m => '-' :: natDigits (m + 1)

/-- Rendering of a settings value by `str.format`, as Python would print
it inside a formatted shell command. -/
def jvalFormatL : JVal → List Char
  | .jstr s => s.toList
  | .jnum n => formatInt n
  | .jnull => "None".toList

/-- Model of `os.path.join(a, b)` for a relative second component. -/
def pathJoin (a b : String) : String :=
  if a = "" then b
  else if a.toList.getLast? = some '/' then a ++ b
  else a ++ "/" ++ b

/-- Modelled from the spec: `validators.username` (file
`kalite_gtk/validators.py`, not present in the sources).  Per the spec a
username is valid when it resolves to a real system account; the validator
returns the (already normalized) value and raises `ValidationError`
(modelled as `none`) otherwise, including on non-string input. -/
def validators.username (env : Env) : JVal → Option JVal
  | .jstr s => if (env.pwDir s).isSome then some (.jstr s) else none
  | _ => none

/-- Modelled from the spec: `validators.port` — an integer in the valid
TCP range 1..65535; anything else raises `ValidationError`. -/
def validators.port : JVal → Option JVal
  | .jnum n => if 1 ≤ n ∧ n ≤ 65535 then some (.jnum n) else none
  | _ => none

/-- Modelled from the spec: `validators.command` — a non-empty command
string; anything else raises `ValidationError`. -/
def validators.command : JVal → Option JVal
  | .jstr s => if s.data.isEmpty then none else some (.jstr s)
  | _ => none

/-- Model of `pwd.getpwnam(user).pw_dir` joined with `.kalite`
(`get_kalite_home`); `none` models the `KeyError` raised by `getpwnam`
for an unknown account. -/
def get_kalite_home (env : Env) (user : String) : Option String :=
  (env.pwDir user).map (fun d => pathJoin d ".kalite")

/-- Result of the import-time Debian-convention block (cli.py lines 49-70):
the final value of the Python variable `debian_username` (note that on
`ValidationError` it keeps the invalid first line, and that it is the empty
string when the file starts with a newline), and the resulting module
defaults `DEFAULT_USER` and `DEFAULT_PORT`. -/
structure DebianLayer where
  debian_username : Option String
  DEFAULT_USER : String
  DEFAULT_PORT : Int
  logs : List LogEvent
deriving DecidableEq

/-- Python truthiness of the `debian_username` variable. -/
def debianTruthy : Option String → Bool
  | none => false
  | some s => !s.data.isEmpty

/-- Characters before the first newline: the Python split of the content
on newline characters, taken at index 0. -/
def takeUntilNl : List Char → List Char
  | [] => []
  | c :: rest => if c = '\n' then [] else c :: takeUntilNl rest

def firstLine (s : String) : String := (takeUntilNl s.toList).asString

/-- The Debian-convention import-time block, cli.py lines 49-70. -/
def debianStep (env : Env) : DebianLayer :=
  match env.debianUsernameFile with
  | none => ⟨none, env.currentUser, 8008, []⟩
  | some content =>
    let du := firstLine content
    if du.data.isEmpty then ⟨some du, env.currentUser, 8008, []⟩
    else
      match validators.username env (.jstr du) with
      | some _ =>
        let port : Int :=
          match env.debianOptionsFile with
          | none => 8008
          | some opts =>
            match searchPort opts.toList with
            | some ds => (digitsToNat ds : Int)
            | none => 8008
        ⟨some du, du, port, []⟩
      | none => ⟨some du, env.currentUser, 8008, [.nonExistingUsername]⟩

/-- Result of import-time configuration resolution: the `settings`
dictionary plus the module-level defaults it will later be compared
against, and the log statements issued along the way. -/
structure Resolved where
  settings : Settings
  DEFAULT_USER : String
  DEFAULT_PORT : Int
  DEFAULT_HOME : String
  debian_username : Option String
  logs : List LogEvent
deriving DecidableEq

/-- One iteration of the loop over `loaded_settings.items()`
(cli.py lines 99-103): a present field is validated (identity validator
for fields that have none) and stored; a `ValidationError` is logged and
the field dropped. -/
def applySetting (st : Settings × List LogEvent) (fieldName : String)
    (validator : JVal → Option JVal) (set : Settings → JVal → Settings)
    (v : Option JVal) : Settings × List LogEvent :=
  match v with
  | none => st
  | some x =>
    match validator x with
    | some y => (set st.1 y, st.2)
    | none => (st.1, st.2 ++ [LogEvent.illegalValue fieldName])

/-- The loop over `loaded_settings.items()`.  The real loop follows the
key order of the JSON file; since the keys are distinct the per-key updates
commute, and we fix the order user, command, content_root, port, home. -/
def loadUserFile (env : Env) (uf : UserFile) (st : Settings × List LogEvent) :
    Settings × List LogEvent :=
  let st1 := applySetting st "user" (validators.username env)
    (fun s v => { s with user := v }) uf.user
  let st2 := applySetting st1 "command" validators.command
    (fun s v => { s with command := v }) uf.command
  let st3 := applySetting st2 "content_root" (fun v => some v)
    (fun s v => { s with content_root := v }) uf.content_root
  let st4 := applySetting st3 "port" validators.port
    (fun s v => { s with port := v }) uf.port
  applySetting st4 "home" (fun v => some v)
    (fun s v => { s with home := v }) uf.home

/-- Lines 104-106: if `home` was not a key of the loaded file, recompute it
from the resolved user via `get_kalite_home` (which calls `pwd.getpwnam`,
raising `KeyError` for an unknown account and `TypeError` when the user
value is not a string). -/
def recomputeHome (env : Env) (uf : UserFile) (st : Settings × List LogEvent) :
    Except PyErr (Settings × List LogEvent) :=
  if uf.home = none then
    match st.1.user with
    | .jstr u =>
      match get_kalite_home env u with
      | some h => .ok ({ st.1 with home := .jstr h }, st.2)
      | none => .error (.keyError u)
    | _ => .error .typeError
  else .ok st

/-- Lines 107-109: if `content_root` was not a key of the loaded file,
recompute it as `os.path.join(settings[home], content)`
(`os.path.join` raises `TypeError` on a non-string argument). -/
def recomputeContentRoot (uf : UserFile) (st : Settings × List LogEvent) :
    Except PyErr (Settings × List LogEvent) :=
  if uf.content_root = none then
    match st.1.home with
    | .jstr h => .ok ({ st.1 with content_root := .jstr (pathJoin h "content") }, st.2)
    | _ => .error .typeError
  else .ok st

/-- Lines 92-111 applied to a successfully parsed user settings file,
after the conditional `del loaded_settings[user]`. -/
def applyUserFile (env : Env) (uf : UserFile) (s0 : Settings)
    (logs0 : List LogEvent) : Except PyErr (Settings × List LogEvent) :=
  let st := loadUserFile env uf (s0, logs0)
  match recomputeHome env uf st with
  | .error e => .error e
  | .ok st2 => recomputeContentRoot uf st2

/-- Import-time configuration resolution: the Debian-convention block, the
default `settings` dictionary (lines 77-88) and the user settings file
layer (lines 92-111).  Note that `del loaded_settings[user]` is executed
whenever the Python variable `debian_username` is truthy, and raises
`KeyError` when the parsed file has no `user` key; the surrounding `try`
only catches `ValueError`, so that `KeyError` escapes. -/
def resolveConfig (env : Env) : Except PyErr Resolved :=
  let dl := debianStep env
  match env.pwDir dl.DEFAULT_USER with
  | none => .error (.keyError dl.DEFAULT_USER)
  | some pwdir =>
    let defaultHome := pathJoin pwdir ".kalite"
    let s0 : Settings :=
      { user := .jstr dl.DEFAULT_USER
        command := match env.kaliteExe with | some c => .jstr c | none => .jnull
        content_root := .jstr (pathJoin defaultHome "content")
        port := .jnum dl.DEFAULT_PORT
        home := .jstr defaultHome }
    let mk := fun (st : Settings × List LogEvent) =>
      Resolved.mk st.1 dl.DEFAULT_USER dl.DEFAULT_PORT defaultHome dl.debian_username st.2
    match env.userSettingsFile with
    | none => .ok (mk (s0, dl.logs))
    | some none => .ok (mk (s0, dl.logs ++ [.parsingError]))
    | some (some uf0) =>
      let delStep : Except PyErr UserFile :=
        if debianTruthy dl.debian_username then
          match uf0.user with
          | none => .error (.keyError "user")
          | some _ => .ok { uf0 with user := none }
        else .ok uf0
      match delStep with
      | .error e => .error e
      | .ok uf =>
        match applyUserFile env uf s0 dl.logs with
        | .error e => .error e
        | .ok st => .ok (mk st)

/-- The user settings file produced by `json.dump(settings, ...)` in
`save_settings`: every key of the dictionary is written. -/
def userFileOfSettings (s : Settings) : UserFile :=
  { user := some s.user, command := some s.command,
    content_root := some s.content_root, port := some s.port,
    home := some s.home }

/-- Model of `str.split(" ")` with an explicit separator: split at every
single space, keeping empty pieces. -/
def splitOnSpaceAux (cur : List Char) : List Char → List (List Char)
  | [] => [cur.reverse]
  | c :: rest =>
    if c = ' ' then cur.reverse :: splitOnSpaceAux [] rest
    else splitOnSpaceAux (c :: cur) rest

def pySplitSpace (s : String) : List String :=
  (splitOnSpaceAux [] s.toList).map List.asString

/-- cli.py line 114-115: `[settings[command]] + kalite_command.split(" ")`.
The managed-binary entry is taken from the settings dictionary as-is
(`JVal.jnull` when `find_executable` found nothing). -/
def get_command (s : Settings) (kalite_command : String) : List JVal :=
  s.command :: (pySplitSpace kalite_command).map JVal.jstr

/-! ## The process executor (cli.py lines 132-186) -/

/-- State of a `subprocess.Popen` object: the output the child will
produce, its terminal exit status, and the `returncode` attribute, which
is `None` until `poll`, `wait` or `communicate` observes termination. -/
structure PopenState where
  stdoutContent : String
  stderrContent : String
  exitStatus : Int
  returncode : Option Int
deriving DecidableEq

/-- `subprocess.Popen(...)`: a fresh process object has `returncode = None`. -/
def popen (stdout stderr : String) (exitStatus : Int) : PopenState :=
  ⟨stdout, stderr, exitStatus, none⟩

/-- `p.communicate()`: reads both streams to the end, waits for the child,
and sets `returncode`. -/
def communicate (p : PopenState) : String × String × PopenState :=
  (p.stdoutContent, p.stderrContent, { p with returncode := some p.exitStatus })

/-- cli.py lines 132-154, `run_kalite_command`: blocking execution via
`communicate`, returning decoded stdout, stderr and `p.returncode`. -/
def run_kalite_command (p : PopenState) : String × String × Option Int :=
  let r := communicate p
  (r.1, r.2.1, r.2.2.returncode)

/-- The chunks successively returned by `p.stdout.readline()`: each chunk
ends with a newline except possibly the last; at end of stream `readline`
returns the empty string, which terminates the iter loop with its
empty-string sentinel. -/
def readlineChunksAux (acc : List Char) : List Char → List (List Char)
  | [] => if acc.isEmpty then [] else [acc.reverse]
  | c :: rest =>
    if c = '\n' then (acc.reverse ++ ['\n']) :: readlineChunksAux [] rest
    else readlineChunksAux (c :: acc) rest

def readlineChunks (l : List Char) : List (List Char) := readlineChunksAux [] l

/-- cli.py lines 157-186, `stream_kalite_command`: one `(line, None, None)`
tuple per stdout line, then a single final tuple
`(None, p.stderr.read(), p.returncode)`.  The generator never calls
`wait`, `poll` or `communicate`, so the `returncode` attribute it reads in
the final tuple is whatever the `Popen` object holds. -/
def stream_kalite_command (p : PopenState) :
    List (Option String × Option String × Option Int) :=
  ((readlineChunks p.stdoutContent.toList).map
    (fun line => (some line.asString, (none : Option String), (none : Option Int))))
  ++ [(none, some p.stderrContent, p.returncode)]

/-! ## Status-URL mining (cli.py lines 273-280) -/

/-- Model of the no-argument `str.split()`: maximal runs of
non-whitespace characters. -/
def wsSplitAux (cur : List Char) : List Char → List (List Char)
  | [] => if cur.isEmpty then [] else [cur.reverse]
  | c :: rest =>
    if pyWS c then
      if cur.isEmpty then wsSplitAux [] rest
      else cur.reverse :: wsSplitAux [] rest
    else wsSplitAux (c :: cur) rest

def pySplitWs (s : String) : List (List Char) := wsSplitAux [] s.toList

/-- Leftmost `re.search` of `(http://[^\s]+)` inside one whitespace-free
token: the match runs from the first occurrence of `http://` to the end of
the token (the greedy `[^\s]+` consumes the whitespace-free rest). -/
def findHttp : List Char → Option (List Char)
  | [] => none
  | c :: rest =>
    if "http://".toList.isPrefixOf (c :: rest) then some (c :: rest)
    else findHttp rest

/-- cli.py lines 273-280, `get_urls_from_status`. -/
def get_urls_from_status (msg : String) (return_code : Int) : List String :=
  if return_code ≠ 0 then []
  else ((pySplitWs msg).filterMap findHttp).map List.asString

/-! ## Settings persistence (cli.py lines 283-340) -/

def DEBIAN_OPTIONS_FILE : String := "/etc/ka-lite/server_options"

def DEBIAN_HOME_FILE : String := "/etc/ka-lite/home"

/-- Side effects of the save path.  The effects after the escalated
subprocess call (the success or error log that depends on the child exit
status) are outside the model, which stops at the invocation itself. -/
inductive Effect where
  | writeUserSettings (s : Settings)
  | logInfo
  | subprocessCall (argv : List String)
deriving DecidableEq

/-- Escalated argument vectors among a list of effects. -/
def subprocessCalls (es : List Effect) : List (List String) :=
  es.filterMap (fun e =>
    match e with
    | .subprocessCall argv => some argv
    | _ => none)

/-- The state `save_settings` runs against: the current `settings`
dictionary, the module defaults established at import time, the current
content of the system options file (`none` when absent), and the
single-token escalation command chosen at import time (`pkexec` or
`gksudo`). -/
structure SaveCtx where
  settings : Settings
  DEFAULT_USER : String
  DEFAULT_PORT : Int
  DEFAULT_HOME : String
  debianOptionsFile : Option String
  sudoCmd : String
deriving DecidableEq

/-- Build a save-time state from an import-time resolution. -/
def saveCtxOf (env : Env) (r : Resolved) (sudoCmd : String) : SaveCtx :=
  { settings := r.settings, DEFAULT_USER := r.DEFAULT_USER,
    DEFAULT_PORT := r.DEFAULT_PORT, DEFAULT_HOME := r.DEFAULT_HOME,
    debianOptionsFile := env.debianOptionsFile, sudoCmd := sudoCmd }

/-- cli.py lines 126-129, the function named sudo there (renamed here because
that word is reserved by a library command): shlex.split of SUDO_COMMAND ++ cmd. -/
def sudoWrap (sudoCmd : String) (cmd : List String) : List String :=
  sudoCmd :: cmd

/-- cli.py lines 309-318: the new content computed for the system options
file when the resolved port differs from the default: `re.sub` of
`--port=\d+` by the formatted port, then `strip()`, then an appended
option when the substring `--port` is absent. -/
def subPortAux (repl : List Char) : Nat → List Char → List Char
  | _, [] => []
  | 0, l => l
  | fuel + 1, c :: rest =>
    match matchPortAt (c :: rest) with
    | some (_, remainder) => repl ++ subPortAux repl fuel remainder
    | none => c :: subPortAux repl fuel rest

/-- Model of `re.sub` for the pattern `--port=\d+`: scan left to right,
replacing every non-overlapping match. -/
def subPort (repl l : List Char) : List Char := subPortAux repl l.length l

def newServerOptions (content : List Char) (portVal : JVal) : List Char :=
  let repl := "--port=".toList ++ jvalFormatL portVal
  let stripped := pyStrip (subPort repl content)
  if listContains "--port".toList stripped then stripped
  else stripped ++ (" --port=".toList ++ jvalFormatL portVal)

/-- Model of `" && ".join(...)`. -/
def joinAndAnd : List String → String
  | [] => ""
  | [c] => c
  | c :: rest => c ++ " && " ++ joinAndAnd rest

/-- A formatted shell redirection, modelling the string
built around `echo` in cli.py lines 320-328. -/
def echoCmd (content file : String) : String :=
  "echo \"" ++ content ++ "\" > " ++ file

/-- cli.py lines 289-340, `save_debian_settings`, up to and including the
escalated subprocess invocation.  When the resolved port differs from the
default the current options file is read with a bare `open`, so a missing
file raises an uncaught file error at that point. -/
def save_debian_settings (ctx : SaveCtx) : Except PyErr (List Effect) :=
  if JVal.jstr ctx.DEFAULT_USER ≠ ctx.settings.user then .ok [.logInfo]
  else
    let portCmds : Except PyErr (List String) :=
      if ctx.settings.port ≠ .jnum ctx.DEFAULT_PORT then
        match ctx.debianOptionsFile with
        | none => .error (.ioError DEBIAN_OPTIONS_FILE)
        | some content =>
          .ok [echoCmd (newServerOptions content.toList ctx.settings.port).asString
                DEBIAN_OPTIONS_FILE]
      else .ok []
    match portCmds with
    | .error e => .error e
    | .ok cmds1 =>
      let cmds2 :=
        if ctx.settings.home ≠ .jstr ctx.DEFAULT_HOME then
          cmds1 ++ [echoCmd (jvalFormatL ctx.settings.home).asString DEBIAN_HOME_FILE]
        else cmds1
      .ok [.subprocessCall (sudoWrap ctx.sudoCmd ["bash", "-c", joinAndAnd cmds2])]

/-- cli.py lines 283-287, `save_settings`: dump the settings dictionary to
the user settings file, then run `save_debian_settings`; an exception
raised there escapes after the dump has already happened. -/
def save_settings (ctx : SaveCtx) : List Effect × Option PyErr :=
  match save_debian_settings ctx with
  | .ok es => (.writeUserSettings ctx.settings :: es, none)
  | .error e => ([.writeUserSettings ctx.settings], some e)

/-! ## Concrete inputs used by the theorems below -/

/-- A settings dictionary whose managed-binary entry is absent
(`find_executable(kalite)` returned `None`). -/
def settingsNoCommand : Settings :=
  { user := .jstr "alice", command := .jnull,
    content_root := .jstr "/home/alice/.kalite/content",
    port := .jnum 8008, home := .jstr "/home/alice/.kalite" }

/-- Debian system with username file `kalite`, no options file, and a user
settings file that omits the `user` key. -/
def envC3 : Env :=
  { currentUser := "alice"
    pwDir := fun u =>
      if u = "kalite" then some "/var/kalite"
      else if u = "alice" then some "/home/alice" else none
    kaliteExe := some "/usr/bin/kalite"
    debianUsernameFile := some "kalite\n"
    debianOptionsFile := none
    userSettingsFile := some (some
      { user := none, command := none, content_root := none,
        port := some (.jnum 9000), home := none }) }

/-- Non-Debian system (no system convention files), user settings file with
one malformed validated field (`port`) and a non-string `home` value. -/
def envC5bad : Env :=
  { currentUser := "alice"
    pwDir := fun u => if u = "alice" then some "/home/alice" else none
    kaliteExe := some "/usr/bin/kalite"
    debianUsernameFile := none
    debianOptionsFile := none
    userSettingsFile := some (some
      { user := none, command := none, content_root := none,
        port := some (.jstr "bad"), home := some (.jnum 5) }) }

/-- Debian system whose convention user differs from the invoking user and
no user settings file. -/
def envC6 : Env :=
  { currentUser := "alice"
    pwDir := fun u =>
      if u = "kalite" then some "/var/kalite"
      else if u = "alice" then some "/home/alice" else none
    kaliteExe := some "/usr/bin/kalite"
    debianUsernameFile := some "kalite\n"
    debianOptionsFile := none
    userSettingsFile := none }

/-- Save-time state on a non-Debian system (options file absent) after the
user changed the port away from the default. -/
def ctxC4 : SaveCtx :=
  { settings :=
      { user := .jstr "alice", command := .jnull,
        content_root := .jstr "/home/alice/.kalite/content",
        port := .jnum 7007, home := .jstr "/home/alice/.kalite" }
    DEFAULT_USER := "alice", DEFAULT_PORT := 8008,
    DEFAULT_HOME := "/home/alice/.kalite",
    debianOptionsFile := none, sudoCmd := "pkexec" }

/-- Save-time state with a changed port and an options file whose content
holds the substring `--port` but no digit token after it. -/
def ctxC9 : SaveCtx :=
  { settings :=
      { user := .jstr "kalite", command := .jstr "/usr/bin/kalite",
        content_root := .jstr "/var/kalite/.kalite/content",
        port := .jnum 7007, home := .jstr "/var/kalite/.kalite" }
    DEFAULT_USER := "kalite", DEFAULT_PORT := 8008,
    DEFAULT_HOME := "/var/kalite/.kalite",
    debianOptionsFile := some "--port=x", sudoCmd := "pkexec" }

/-! ## Validated fields of the user settings file (for the per-field
error-recovery property) -/

/-- The three settings keys that have validators. -/
inductive VField where
  | user
  | command
  | port
deriving DecidableEq

def VField.getInFile (f : VField) (uf : UserFile) : Option JVal :=
  match f with
  | .user => uf.user
  | .command => uf.command
  | .port => uf.port

def VField.validator (f : VField) (env : Env) : JVal → Option JVal :=
  match f with
  | .user => validators.username env
  | .command => validators.command
  | .port => validators.port

def VField.fieldName : VField → String
  | .user => "user"
  | .command => "command"
  | .port => "port"

/-- The same user file with one validated field removed. -/
def VField.dropIn (f : VField) (uf : UserFile) : UserFile :=
  match f with
  | .user => { uf with user := none }
  | .command => { uf with command := none }
  | .port => { uf with port := none }

/-! ## Further concrete inputs for witnesses -/

def ufC5w : UserFile :=
  { user := none, command := none, content_root := none,
    port := some (.jstr "bad"), home := none }

/-- Non-Debian system, user settings file whose only malformed field is
`port` (a string instead of an integer). -/
def envC5w : Env :=
  { currentUser := "alice"
    pwDir := fun u => if u = "alice" then some "/home/alice" else none
    kaliteExe := some "/usr/bin/kalite"
    debianUsernameFile := none
    debianOptionsFile := none
    userSettingsFile := some (some ufC5w) }

/-- An environment with no system convention files at all. -/
def envNoDebian : Env :=
  { currentUser := "alice"
    pwDir := fun u => if u = "alice" then some "/home/alice" else none
    kaliteExe := some "/usr/bin/kalite"
    debianUsernameFile := none
    debianOptionsFile := none
    userSettingsFile := none }

/-- Save-time state with default port, changed home, options file absent. -/
def ctxW4 : SaveCtx :=
  { settings :=
      { user := .jstr "alice", command := .jnull,
        content_root := .jstr "/data/.kalite/content",
        port := .jnum 8008, home := .jstr "/data/.kalite" }
    DEFAULT_USER := "alice", DEFAULT_PORT := 8008,
    DEFAULT_HOME := "/home/alice/.kalite",
    debianOptionsFile := none, sudoCmd := "pkexec" }

/-- A valid effective settings value for the round-trip witness. -/
def sC8w : Settings :=
  { user := .jstr "alice", command := .jstr "/usr/bin/kalite",
    content_root := .jstr "/home/alice/.kalite/content",
    port := .jnum 7007, home := .jstr "/home/alice/.kalite" }

/-- Environment on re-resolution immediately after saving `sC8w`: no system
convention files, the user settings file holds exactly the dumped keys. -/
def envC8w : Env :=
  { currentUser := "alice"
    pwDir := fun u => if u = "alice" then some "/home/alice" else none
    kaliteExe := some "/usr/bin/kalite"
    debianUsernameFile := none
    debianOptionsFile := none
    userSettingsFile := some (some (userFileOfSettings sC8w)) }

/-- Save-time state whose resolved user differs from the default user. -/
def ctxC6w : SaveCtx :=
  { settings :=
      { user := .jstr "bob", command := .jstr "/usr/bin/kalite",
        content_root := .jstr "/home/bob/.kalite/content",
        port := .jnum 9090, home := .jstr "/home/bob/.kalite" }
    DEFAULT_USER := "alice", DEFAULT_PORT := 8008,
    DEFAULT_HOME := "/home/alice/.kalite",
    debianOptionsFile := some "--port=8008", sudoCmd := "pkexec" }

/-- Save-time state where nothing differs from the defaults. -/
def ctxC10w : SaveCtx :=
  { settings :=
      { user := .jstr "alice", command := .jstr "/usr/bin/kalite",
        content_root := .jstr "/home/alice/.kalite/content",
        port := .jnum 8008, home := .jstr "/home/alice/.kalite" }
    DEFAULT_USER := "alice", DEFAULT_PORT := 8008,
    DEFAULT_HOME := "/home/alice/.kalite",
    debianOptionsFile := none, sudoCmd := "gksudo" }

/-- Validity of an effective settings value, phrased through the
validators: every field is a value its validator accepts unchanged, and
the path fields are strings. -/
def validEffectiveSettings (env : Env) (s : Settings) : Prop :=
  validators.username env s.user = some s.user ∧
  validators.command s.command = some s.command ∧
  validators.port s.port = some s.port ∧
  (∃ h, s.home = JVal.jstr h) ∧ (∃ c, s.content_root = JVal.jstr c)

/-! ## Helper lemmas about the character-level models -/

theorem isPrefixOfBridge {l₁ l₂ : List Char} : l₁.isPrefixOf l₂ = true ↔ l₁ <+: l₂ :=
  List.isPrefixOf_iff_prefix

theorem isInfixCons {xs l : List Char} (c : Char) (h : xs <:+: l) : xs <:+: c :: l := by
  obtain ⟨s, t, rfl⟩ := h
  exact ⟨c :: s, t, rfl⟩

theorem isInfixAppendRight {xs a : List Char} (b : List Char) (h : xs <:+: a) :
    xs <:+: a ++ b := by
  obtain ⟨s, t, rfl⟩ := h
  exact ⟨s, t ++ b, by simp⟩

theorem listContains_iff {n l : List Char} : listContains n l = true ↔ n <:+: l := by
  induction l with
  | nil =>
    constructor
    · intro h
      have hn : n = [] := by simpa [listContains, List.isEmpty_iff] using h
      subst hn
      exact ⟨[], [], rfl⟩
    · rintro ⟨s, t, h⟩
      have := congrArg List.length h
      simp at this
      simp [listContains, List.isEmpty_iff, this]
  | cons c rest ih =>
    constructor
    · intro h
      simp only [listContains, Bool.or_eq_true] at h
      rcases h with hp | hi
      · exact (isPrefixOfBridge.mp hp).isInfix
      · exact isInfixCons c (ih.mp hi)
    · rintro ⟨s, t, h⟩
      cases s with
      | nil =>
        have hnt : n ++ t = c :: rest := by simpa using h
        have hp : n <+: c :: rest := ⟨t, hnt⟩
        simp only [listContains, Bool.or_eq_true]
        exact Or.inl (isPrefixOfBridge.mpr hp)
      | cons a s2 =>
        have h2 : a :: (s2 ++ n ++ t) = c :: rest := by simpa using h
        have hrest : s2 ++ n ++ t = rest := (List.cons.injEq _ _ _ _ ▸ h2 : _) |>.2
        have : n <:+: rest := ⟨s2, t, hrest⟩
        simp only [listContains, Bool.or_eq_true]
        exact Or.inr (ih.mpr this)

theorem matchPortAt_portAtHead {l : List Char} {x : List Char × List Char}
    (h : matchPortAt l = some x) : "--port".toList <+: l := by
  unfold matchPortAt at h
  by_cases hp : "--port=".toList.isPrefixOf l
  · obtain ⟨t, ht⟩ := isPrefixOfBridge.mp hp
    refine ⟨'=' :: t, ?_⟩
    have heq : "--port=".toList = "--port".toList ++ ['='] := by decide
    rw [heq] at ht
    simpa using ht
  · rw [if_neg hp] at h
    exact Option.noConfusion h

theorem subPortAux_id {repl l : List Char} (fuel : Nat)
    (h : listContains "--port".toList l = false) :
    subPortAux repl fuel l = l := by
  induction fuel generalizing l with
  | zero => cases l <;> simp [subPortAux]
  | succ fuel ih =>
    cases l with
    | nil => simp [subPortAux]
    | cons c rest =>
      have hm : matchPortAt (c :: rest) = none := by
        cases hmm : matchPortAt (c :: rest) with
        | none => rfl
        | some x =>
          have : listContains "--port".toList (c :: rest) = true :=
            listContains_iff.mpr (matchPortAt_portAtHead hmm).isInfix
          rw [this] at h
          cases h
      have hrest : listContains "--port".toList rest = false := by
        cases hr : listContains "--port".toList rest with
        | false => rfl
        | true =>
          have : listContains "--port".toList (c :: rest) = true :=
            listContains_iff.mpr (isInfixCons c (listContains_iff.mp hr))
          rw [this] at h
          cases h
      simp [subPortAux, hm, ih hrest]

theorem subPortAux_replaces {repl l : List Char} {fuel : Nat}
    (hfuel : l.length ≤ fuel) (h : hasPortToken l = true) :
    repl <:+: subPortAux repl fuel l := by
  induction fuel generalizing l with
  | zero =>
    have hl : l = [] := List.length_eq_zero.mp (Nat.le_zero.mp hfuel)
    subst hl
    simp [hasPortToken] at h
  | succ fuel ih =>
    cases l with
    | nil => simp [hasPortToken] at h
    | cons c rest =>
      cases hm : matchPortAt (c :: rest) with
      | some x =>
        obtain ⟨ds, rem⟩ := x
        simp only [subPortAux, hm]
        exact ⟨[], subPortAux repl fuel rem, by simp⟩
      | none =>
        have hr : hasPortToken rest = true := by
          simpa [hasPortToken, hm] using h
        have hl : rest.length ≤ fuel := by
          simp at hfuel
          omega
        simp only [subPortAux, hm]
        exact isInfixCons c (ih hl hr)

theorem isInfixDropWhile {xs l : List Char} (p : Char → Bool)
    (hxs : ∀ c ∈ xs, p c = false) (hne : xs ≠ [])
    (h : xs <:+: l) : xs <:+: l.dropWhile p := by
  induction l with
  | nil =>
    obtain ⟨s, t, hst⟩ := h
    have h1 := List.append_eq_nil.mp hst
    have h2 := List.append_eq_nil.mp h1.1
    exact absurd h2.2 hne
  | cons c rest ih =>
    cases hp : p c with
    | false => simpa [List.dropWhile_cons, hp] using h
    | true =>
      obtain ⟨s, t, hst⟩ := h
      cases s with
      | nil =>
        cases xs with
        | nil => exact absurd rfl hne
        | cons x xs2 =>
          have hxc : x = c := by
            have h2 : x :: (xs2 ++ t) = c :: rest := by simpa using hst
            exact ((List.cons.injEq _ _ _ _).mp h2).1
          have := hxs x (by simp)
          rw [hxc, hp] at this
          cases this
      | cons a s2 =>
        have h2 : a :: (s2 ++ xs ++ t) = c :: rest := by simpa using hst
        have hrest : xs <:+: rest := ⟨s2, t, ((List.cons.injEq _ _ _ _).mp h2).2⟩
        simpa [List.dropWhile_cons, hp] using ih hrest

theorem pyStrip_keeps {xs l : List Char}
    (hxs : ∀ c ∈ xs, pyWS c = false) (hne : xs ≠ [])
    (h : xs <:+: l) : xs <:+: pyStrip l := by
  have h1 : xs <:+: l.dropWhile pyWS := isInfixDropWhile pyWS hxs hne h
  have h2 : xs.reverse <:+: (l.dropWhile pyWS).reverse := List.reverse_infix.mpr h1
  have hxs2 : ∀ c ∈ xs.reverse, pyWS c = false := by simpa using hxs
  have hne2 : xs.reverse ≠ [] := by simpa using hne
  have h3 := isInfixDropWhile pyWS hxs2 hne2 h2
  have h4 := List.reverse_infix.mpr h3
  simpa [pyStrip] using h4

theorem pyStrip_isInfixOfSelf (l : List Char) : pyStrip l <:+: l := by
  obtain ⟨s, hs⟩ := List.dropWhile_suffix (l := (l.dropWhile pyWS).reverse) pyWS
  have hpfx : pyStrip l <+: l.dropWhile pyWS := by
    refine ⟨s.reverse, ?_⟩
    have := congrArg List.reverse hs
    simpa [pyStrip] using this
  exact hpfx.isInfix.trans (List.dropWhile_suffix pyWS).isInfix

theorem digitChar_not_ws {n : Nat} (h : n < 10) : pyWS (Nat.digitChar n) = false := by
  interval_cases n <;> rfl

theorem natDigitsAux_not_ws (fuel : Nat) :
    ∀ (n : Nat), ∀ c ∈ natDigitsAux fuel n, pyWS c = false := by
  induction fuel with
  | zero => intro n c hc; simp [natDigitsAux] at hc
  | succ fuel ih =>
    intro n c hc
    by_cases h : n < 10
    · simp [natDigitsAux, h] at hc
      subst hc
      exact digitChar_not_ws h
    · simp [natDigitsAux, h] at hc
      rcases hc with hc | hc
      · exact ih (n / 10) c hc
      · subst hc
        exact digitChar_not_ws (Nat.mod_lt _ (by omega))

theorem formatInt_not_ws (v : Int) : ∀ c ∈ formatInt v, pyWS c = false := by
  cases v with
  | ofNat m =>
    intro c hc
    exact natDigitsAux_not_ws (m + 1) m c (by simpa [formatInt, natDigits] using hc)
  | negSucc m =>
    intro c hc
    simp [formatInt] at hc
    rcases hc with rfl | hc
    · rfl
    · exact natDigitsAux_not_ws _ _ c (by simpa [natDigits] using hc)

theorem portRepl_not_ws (v : Int) :
    ∀ c ∈ ("--port=".toList ++ formatInt v), pyWS c = false := by
  intro c hc
  rcases List.mem_append.mp hc with hc | hc
  · have hall : ∀ c ∈ "--port=".toList, pyWS c = false := by decide
    exact hall c hc
  · exact formatInt_not_ws v c hc

theorem portRepl_ne_nil (v : Int) : ("--port=".toList ++ formatInt v) ≠ [] := by
  have h7 : "--port=".toList = '-' :: "-port=".toList := rfl
  simp [h7]

/-- Sanity of the readline model: the chunks concatenate back to the whole
stdout content. -/
theorem readlineChunksAux_join (l : List Char) :
    ∀ acc, (readlineChunksAux acc l).flatten = acc.reverse ++ l := by
  induction l with
  | nil =>
    intro acc
    by_cases h : acc.isEmpty
    · simp [readlineChunksAux, h, List.isEmpty_iff.mp h]
    · simp [readlineChunksAux, h]
  | cons c rest ih =>
    intro acc
    by_cases h : c = '\n'
    · subst h
      simp [readlineChunksAux, ih]
    · simp [readlineChunksAux, h, ih]

theorem readlineChunks_join (l : List Char) : (readlineChunks l).flatten = l := by
  simpa using readlineChunksAux_join l []

/-- C1: for a subprocess that writes one newline-terminated line to stdout
and exits with status 3, the streaming executor yields the line tuple and
then one final tuple whose stderr payload is the captured stderr — but
whose exit-code payload is absent rather than 3, because the generator
reads `p.returncode` without ever waiting on or polling the child. -/
theorem C1_streaming_final_tuple_has_no_exit_code :
    stream_kalite_command (popen "hello\n" "oops" 3) =
      [(some "hello\n", none, none), (none, some "oops", none)] := rfl

/-- C2 counterexample: with the managed binary unresolved
(`settings[command]` is `None`), `get_command` does not fail with a
configuration error; it returns an argument vector whose head is the
absent value. -/
theorem C2_returns_vector_with_absent_command :
    get_command settingsNoCommand "start" = [JVal.jnull, JVal.jstr "start"] := rfl

/-- C2 amended: `get_command` never fails; when the managed binary is
absent it silently builds an invalid vector whose first element is the
absent command value, followed by the split logical arguments. -/
theorem C2_amended_silent_invalid_vector (s : Settings) (args : String)
    (h : s.command = JVal.jnull) :
    (get_command s args).head? = some JVal.jnull ∧
    (get_command s args).length = (pySplitSpace args).length + 1 := by
  simp [get_command, h]

theorem C2_amended_witness :
    (get_command settingsNoCommand "stop").head? = some JVal.jnull ∧
    (get_command settingsNoCommand "stop").length =
      (pySplitSpace "stop").length + 1 :=
  C2_amended_silent_invalid_vector settingsNoCommand "stop" rfl

/-- C3: when the system username file yields the valid username `kalite`
but the user settings file omits the `user` key, configuration resolution
does not complete: `del loaded_settings[user]` raises a `KeyError` that
the surrounding `except ValueError` does not catch. -/
theorem C3_crash_when_user_key_absent :
    resolveConfig envC3 = .error (.keyError "user") := rfl

/-- C4 counterexample: `save_debian_settings` invoked with the resolved
user equal to the default user and a resolved port different from the
default reads the system options file with a bare `open`, so its absence
raises an uncaught file error instead of being skipped. -/
theorem C4_save_crashes_on_missing_options_file :
    save_debian_settings ctxC4 = .error (.ioError DEBIAN_OPTIONS_FILE) := rfl

/-- C4 amended: a missing system username file is treated as layer-not-
present by configuration resolution (compiled defaults, no log), and
`save_debian_settings` completes without touching any system file when the
resolved port equals the default (for any resolved home) — but, per the
counterexample, not when the port differs and the options file is absent. -/
theorem C4_amended_missing_files :
    (∀ env : Env, env.debianUsernameFile = none →
      debianStep env = ⟨none, env.currentUser, 8008, []⟩) ∧
    (∀ ctx : SaveCtx, ctx.settings.user = .jstr ctx.DEFAULT_USER →
      ctx.settings.port = .jnum ctx.DEFAULT_PORT →
      ∃ es, save_debian_settings ctx = .ok es) := by
  constructor
  · intro env h
    simp [debianStep, h]
  · intro ctx hu hp
    by_cases hh : ctx.settings.home = .jstr ctx.DEFAULT_HOME
    · refine ⟨[.subprocessCall (sudoWrap ctx.sudoCmd
        ["bash", "-c", joinAndAnd []])], ?_⟩
      simp [save_debian_settings, hu, hp, hh]
    · refine ⟨[.subprocessCall (sudoWrap ctx.sudoCmd
        ["bash", "-c", joinAndAnd
          [echoCmd (jvalFormatL ctx.settings.home).asString DEBIAN_HOME_FILE]])], ?_⟩
      simp [save_debian_settings, hu, hp, hh]

theorem C4_amended_witness :
    debianStep envNoDebian = ⟨none, "alice", 8008, []⟩ ∧
    ∃ es, save_debian_settings ctxW4 = .ok es :=
  ⟨C4_amended_missing_files.1 envNoDebian rfl,
   C4_amended_missing_files.2 ctxW4 rfl rfl⟩

/-- C7: `get_urls_from_status` on the status line with exit code 0 yields
exactly the one URL, and for every text and nonzero exit code it yields
nothing. -/
theorem C7_status_url_mining :
    get_urls_from_status "Server running at http://127.0.0.1:8008/" 0 =
      ["http://127.0.0.1:8008/"] ∧
    ∀ (msg : String) (rc : Int), rc ≠ 0 → get_urls_from_status msg rc = [] := by
  constructor
  · rfl
  · intro msg rc h
    simp [get_urls_from_status, h]

theorem C7_witness : get_urls_from_status "x" 1 = [] :=
  C7_status_url_mining.2 "x" 1 (by decide)

/-- C10: when nothing differs from the defaults, `save_debian_settings`
still performs exactly one escalated shell invocation, and its command
string (the join of zero scheduled commands) is empty. -/
theorem C10_empty_escalated_call (ctx : SaveCtx)
    (hu : ctx.settings.user = .jstr ctx.DEFAULT_USER)
    (hp : ctx.settings.port = .jnum ctx.DEFAULT_PORT)
    (hh : ctx.settings.home = .jstr ctx.DEFAULT_HOME) :
    save_debian_settings ctx =
      .ok [.subprocessCall [ctx.sudoCmd, "bash", "-c", ""]] := by
  simp [save_debian_settings, hu, hp, hh, sudoWrap]
  rfl

theorem C10_witness :
    save_debian_settings ctxC10w =
      .ok [.subprocessCall ["gksudo", "bash", "-c", ""]] :=
  C10_empty_escalated_call ctxC10w rfl rfl rfl

/-- C6 counterexample: on a Debian system whose convention user `kalite`
differs from the compiled default (the invoking user `alice`), the
resolved user differs from the compiled-default user and yet `save`
performs an escalated subprocess invocation, because the guard compares
against the module default that the system username file overrode. -/
theorem C6_escalates_for_debian_default_user :
    ∃ r, resolveConfig envC6 = .ok r ∧
      r.settings.user ≠ JVal.jstr envC6.currentUser ∧
      subprocessCalls (save_settings (saveCtxOf envC6 r "pkexec")).1 =
        [["pkexec", "bash", "-c", ""]] := by
  refine ⟨_, rfl, ?_, ?_⟩ <;> decide

/-- C6 amended: when the resolved user differs from the effective default
user (the compiled default possibly overridden by the system username
file), `save_settings` writes the user settings file, logs, and performs
zero escalated subprocess invocations. -/
theorem C6_amended_no_escalation_for_nondefault_user (ctx : SaveCtx)
    (h : JVal.jstr ctx.DEFAULT_USER ≠ ctx.settings.user) :
    save_settings ctx = ([.writeUserSettings ctx.settings, .logInfo], none) ∧
    subprocessCalls (save_settings ctx).1 = [] := by
  have hsd : save_debian_settings ctx = .ok [.logInfo] := by
    simp [save_debian_settings, h]
  constructor
  · simp [save_settings, hsd]
  · simp [save_settings, hsd, subprocessCalls]

theorem C6_amended_witness :
    save_settings ctxC6w = ([.writeUserSettings ctxC6w.settings, .logInfo], none) ∧
    subprocessCalls (save_settings ctxC6w).1 = [] :=
  C6_amended_no_escalation_for_nondefault_user ctxC6w (by decide)

/-- C9 counterexample: with current options content `--port=x` (which
holds the substring `--port` but no digit token) and a resolved port 7007,
the scheduled new options content is unchanged and holds no
`--port=7007` token: the regex replaces nothing and the substring check
suppresses the append. -/
theorem C9_scheduled_content_misses_port_token :
    save_debian_settings ctxC9 = .ok [.subprocessCall ["pkexec", "bash", "-c",
      "echo \"--port=x\" > /etc/ka-lite/server_options"]] ∧
    ¬ ("--port=7007".toList <:+: newServerOptions "--port=x".toList (.jnum 7007)) := by
  constructor
  · rfl
  · intro h
    have hc := listContains_iff.mpr h
    revert hc
    decide

/-- C9 amended: the new options content computed for writing contains the
token `--port=P` whenever the current content either contains a
`--port=<digits>` token (which the regex then replaces) or does not
contain the substring `--port` at all (so the token is appended); when the
substring is present without a digit token, per the counterexample,
neither happens. -/
theorem C9_amended_port_token (content : List Char) (n : Int)
    (h : hasPortToken content = true ∨
      listContains "--port".toList content = false) :
    ("--port=".toList ++ formatInt n) <:+: newServerOptions content (.jnum n) := by
  have hgoal : newServerOptions content (.jnum n) =
      (if listContains "--port".toList
          (pyStrip (subPort ("--port=".toList ++ formatInt n) content)) = true
       then pyStrip (subPort ("--port=".toList ++ formatInt n) content)
       else pyStrip (subPort ("--port=".toList ++ formatInt n) content) ++
         (" --port=".toList ++ formatInt n)) := rfl
  rw [hgoal]
  rcases h with h | h
  · have h1 : ("--port=".toList ++ formatInt n) <:+:
        subPort ("--port=".toList ++ formatInt n) content :=
      subPortAux_replaces (Nat.le_refl _) h
    have h2 := pyStrip_keeps (portRepl_not_ws n) (portRepl_ne_nil n) h1
    by_cases hcond : listContains "--port".toList
        (pyStrip (subPort ("--port=".toList ++ formatInt n) content)) = true
    · rw [if_pos hcond]
      exact h2
    · rw [if_neg hcond]
      exact isInfixAppendRight _ h2
  · have hid : subPort ("--port=".toList ++ formatInt n) content = content :=
      subPortAux_id _ h
    rw [hid]
    have hnotin : listContains "--port".toList (pyStrip content) = false := by
      cases hcc : listContains "--port".toList (pyStrip content) with
      | false => rfl
      | true =>
        have hinf := (listContains_iff.mp hcc).trans (pyStrip_isInfixOfSelf content)
        rw [listContains_iff.mpr hinf] at h
        cases h
    rw [if_neg (by intro hx; rw [hnotin] at hx; exact Bool.noConfusion hx)]
    refine ⟨pyStrip content ++ [' '], [], ?_⟩
    have hsp : " --port=".toList = ' ' :: "--port=".toList := rfl
    simp [hsp]

theorem C9_amended_witness :
    hasPortToken "--port=8008".toList = true ∧
    ("--port=".toList ++ formatInt 7007) <:+:
      newServerOptions "--port=8008".toList (.jnum 7007) :=
  ⟨by decide, C9_amended_port_token ("--port=8008".toList) 7007 (Or.inl (by decide))⟩

/-- C5 counterexample: a user settings file in which exactly one field
fails its validator (`port`, a string) but whose `home` value is a
non-string causes configuration resolution to abort with an uncaught
`TypeError` (raised by `os.path.join(settings[home], content)`), so
the resolver does not keep the other fields. -/
theorem C5_abort_despite_single_bad_field :
    validators.port (JVal.jstr "bad") = none ∧
    resolveConfig envC5bad = .error .typeError :=
  ⟨rfl, rfl⟩

/-- A missing system username file leaves the compiled defaults untouched
and logs nothing. -/
theorem debianStep_none (env : Env) (h : env.debianUsernameFile = none) :
    debianStep env = ⟨none, env.currentUser, 8008, []⟩ := by
  simp [debianStep, h]

/-- C8: saving a valid effective settings value (every key dumped to the
user file) and re-resolving with no system convention files reproduces the
same settings dictionary, with no warnings. -/
theorem C8_roundtrip (env : Env) (s : Settings) (d : String)
    (hpw : env.pwDir env.currentUser = some d)
    (hdeb : env.debianUsernameFile = none)
    (hfile : env.userSettingsFile = some (some (userFileOfSettings s)))
    (hvalid : validEffectiveSettings env s) :
    resolveConfig env =
      .ok ⟨s, env.currentUser, 8008, pathJoin d ".kalite", none, []⟩ := by
  obtain ⟨hu, hc, hp, ⟨hh, hhome⟩, ⟨hcr, hcroot⟩⟩ := hvalid
  have hdl := debianStep_none env hdeb
  cases s with
  | mk su sc scr sp sh =>
    simp only at hu hc hp hhome hcroot
    simp [resolveConfig, hdl, hpw, hfile, debianTruthy, applyUserFile, loadUserFile,
      applySetting, userFileOfSettings, recomputeHome, recomputeContentRoot, hu, hc, hp]

theorem C8_roundtrip_witness :
    resolveConfig envC8w =
      .ok ⟨sC8w, "alice", 8008, pathJoin "/home/alice" ".kalite", none, []⟩ :=
  C8_roundtrip envC8w sC8w "/home/alice" rfl rfl rfl
    ⟨by decide, by decide, by decide, ⟨_, rfl⟩, ⟨_, rfl⟩⟩

theorem isSomeExists {α : Type} {o : Option α} (h : o.isSome = true) :
    ∃ x, o = some x :=
  Option.isSome_iff_exists.mp h

/-- A successful username validation pins the shapes involved. -/
theorem username_shape {env : Env} {v w : JVal}
    (h : validators.username env v = some w) :
    ∃ u du, v = .jstr u ∧ w = .jstr u ∧ env.pwDir u = some du := by
  cases v with
  | jstr s =>
    by_cases hs : (env.pwDir s).isSome = true
    · obtain ⟨du, hdu⟩ := isSomeExists hs
      have hw : w = .jstr s := by
        simp [validators.username, hs] at h
        exact h.symm
      exact ⟨s, du, rfl, hw, hdu⟩
    · simp [validators.username, hs] at h
  | jnum m => simp [validators.username] at h
  | jnull => simp [validators.username] at h

set_option maxHeartbeats 2000000 in
/-- C5 amended: for a parsed user settings file in which exactly one
validated field is malformed, provided no system username file is in force
and any `home` value present in the file is a string, resolution completes
and behaves exactly like resolution of the same file with the malformed
field absent, except for logging exactly one warning: the bad field is
dropped in favor of the prior-layer value and every other field keeps its
validated or default value. -/
theorem C5_amended_one_bad_field (env : Env) (uf : UserFile) (f : VField)
    (v : JVal) (d : String)
    (hpw : env.pwDir env.currentUser = some d)
    (hdeb : env.debianUsernameFile = none)
    (hfile : env.userSettingsFile = some (some uf))
    (hv : f.getInFile uf = some v)
    (hfail : f.validator env v = none)
    (hothers : ∀ g : VField, g ≠ f → ∀ w, g.getInFile uf = some w →
      (g.validator env w).isSome = true)
    (hhome : ∀ w, uf.home = some w → ∃ hh, w = JVal.jstr hh) :
    resolveConfig env =
      Except.map
        (fun r => { r with logs := r.logs ++ [LogEvent.illegalValue f.fieldName] })
        (resolveConfig { env with userSettingsFile := some (some (f.dropIn uf)) }) ∧
    (resolveConfig { env with userSettingsFile := some (some (f.dropIn uf)) }).toOption.map
      Resolved.logs = some [] := by
  have hhD : uf.home = none ∨ ∃ hh, uf.home = some (.jstr hh) := by
    cases hx : uf.home with
    | none => exact Or.inl rfl
    | some w =>
      obtain ⟨hh, rfl⟩ := hhome w hx
      exact Or.inr ⟨hh, rfl⟩
  have hcrD : uf.content_root = none ∨ ∃ w3, uf.content_root = some w3 := by
    cases hx : uf.content_root with
    | none => exact Or.inl rfl
    | some w3 => exact Or.inr ⟨w3, rfl⟩
  cases f with
  | user =>
    simp only [VField.getInFile] at hv
    simp only [VField.validator] at hfail
    have hcmd := hothers .command (by decide)
    have hport := hothers .port (by decide)
    have hcD : uf.command = none ∨
        ∃ w w2, uf.command = some w ∧ validators.command w = some w2 := by
      cases hx : uf.command with
      | none => exact Or.inl rfl
      | some w =>
        obtain ⟨w2, hw2⟩ := isSomeExists (hcmd w hx)
        exact Or.inr ⟨w, w2, rfl, hw2⟩
    have hpD : uf.port = none ∨
        ∃ w w2, uf.port = some w ∧ validators.port w = some w2 := by
      cases hx : uf.port with
      | none => exact Or.inl rfl
      | some w =>
        obtain ⟨w2, hw2⟩ := isSomeExists (hport w hx)
        exact Or.inr ⟨w, w2, rfl, hw2⟩
    rcases hcD with huf_c | ⟨w2, w2v, huf_c, hw2⟩ <;>
      rcases hpD with huf_p | ⟨w4, w4v, huf_p, hw4⟩ <;>
      rcases hcrD with huf_cr | ⟨w3, huf_cr⟩ <;>
      rcases hhD with huf_h | ⟨hh, huf_h⟩ <;>
      (constructor <;>
        simp_all [resolveConfig, debianStep, debianTruthy, applyUserFile,
          loadUserFile, applySetting, recomputeHome, recomputeContentRoot,
          VField.dropIn, VField.fieldName, get_kalite_home, Except.map, Except.toOption,
          Option.map])
  | command =>
    simp only [VField.getInFile] at hv
    simp only [VField.validator] at hfail
    have huser := hothers .user (by decide)
    have hport := hothers .port (by decide)
    have huD : uf.user = none ∨
        ∃ u du, uf.user = some (.jstr u) ∧ env.pwDir u = some du := by
      cases hx : uf.user with
      | none => exact Or.inl rfl
      | some w =>
        obtain ⟨w2, hw2⟩ := isSomeExists (huser w hx)
        obtain ⟨u, du, rfl, _, hdu⟩ := username_shape hw2
        exact Or.inr ⟨u, du, hx ▸ rfl, hdu⟩
    have hpD : uf.port = none ∨
        ∃ w w2, uf.port = some w ∧ validators.port w = some w2 := by
      cases hx : uf.port with
      | none => exact Or.inl rfl
      | some w =>
        obtain ⟨w2, hw2⟩ := isSomeExists (hport w hx)
        exact Or.inr ⟨w, w2, rfl, hw2⟩
    rcases huD with huf_u | ⟨u, du, huf_u, hdu⟩ <;>
      rcases hpD with huf_p | ⟨w4, w4v, huf_p, hw4⟩ <;>
      rcases hcrD with huf_cr | ⟨w3, huf_cr⟩ <;>
      rcases hhD with huf_h | ⟨hh, huf_h⟩ <;>
      (constructor <;>
        simp_all [resolveConfig, debianStep, debianTruthy, applyUserFile,
          loadUserFile, applySetting, recomputeHome, recomputeContentRoot,
          VField.dropIn, VField.fieldName, get_kalite_home, validators.username,
          Except.map, Except.toOption, Option.map])
  | port =>
    simp only [VField.getInFile] at hv
    simp only [VField.validator] at hfail
    have huser := hothers .user (by decide)
    have hcmd := hothers .command (by decide)
    have huD : uf.user = none ∨
        ∃ u du, uf.user = some (.jstr u) ∧ env.pwDir u = some du := by
      cases hx : uf.user with
      | none => exact Or.inl rfl
      | some w =>
        obtain ⟨w2, hw2⟩ := isSomeExists (huser w hx)
        obtain ⟨u, du, rfl, _, hdu⟩ := username_shape hw2
        exact Or.inr ⟨u, du, hx ▸ rfl, hdu⟩
    have hcD : uf.command = none ∨
        ∃ w w2, uf.command = some w ∧ validators.command w = some w2 := by
      cases hx : uf.command with
      | none => exact Or.inl rfl
      | some w =>
        obtain ⟨w2, hw2⟩ := isSomeExists (hcmd w hx)
        exact Or.inr ⟨w, w2, rfl, hw2⟩
    rcases huD with huf_u | ⟨u, du, huf_u, hdu⟩ <;>
      rcases hcD with huf_c | ⟨w2, w2v, huf_c, hw2⟩ <;>
      rcases hcrD with huf_cr | ⟨w3, huf_cr⟩ <;>
      rcases hhD with huf_h | ⟨hh, huf_h⟩ <;>
      (constructor <;>
        simp_all [resolveConfig, debianStep, debianTruthy, applyUserFile,
          loadUserFile, applySetting, recomputeHome, recomputeContentRoot,
          VField.dropIn, VField.fieldName, get_kalite_home, validators.username,
          Except.map, Except.toOption, Option.map])

theorem C5_amended_witness :
    resolveConfig envC5w =
      Except.map
        (fun r => { r with logs := r.logs ++ [LogEvent.illegalValue VField.port.fieldName] })
        (resolveConfig { envC5w with userSettingsFile := some (some (VField.port.dropIn ufC5w)) }) ∧
    (resolveConfig { envC5w with userSettingsFile := some (some (VField.port.dropIn ufC5w)) }).toOption.map
      Resolved.logs = some [] :=
  C5_amended_one_bad_field envC5w ufC5w .port (.jstr "bad") "/home/alice"
    rfl rfl rfl rfl rfl
    (by intro g hg w hw; cases g <;> simp_all [VField.getInFile, ufC5w])
    (by intro w hw; simp [ufC5w] at hw)
